import Mathlib

/-!
Shallow embedding of the rrd command-assembly layer (rrd.go): the command
serializer (join), the schema builder (Creator), the sample buffer (Updater)
and the graph assembler (Grapher), together with theorems settling the
behavioural claims about them.

The storage engine itself (the cgo entry points create/update/graph) lives
outside this layer; wherever the embedded code would cross that boundary we
pass the engine outcome in as an explicit oracle argument and record the call
that would be made, so every theorem quantifies over all engine behaviours.
-/

namespace Rrd

/-- One argument value passed to the command serializer. The Go code switches
on the dynamic type: a time.Time renders as fmt.Sprint(v.Unix()), i.e. the
decimal form of its epoch-second count, and every other type renders via
fmt.Sprint's default conversion. We carry a timestamp as its Unix epoch-second
count, an integer as an Int, a string as itself, and any other kind of value
(float, duration, ...) together with the string its default conversion
produces. -/
inductive Value where
  | timeV (unixSec : Int)
  | intV (n : Int)
  | strV (s : String)
  | otherV (rendered : String)
deriving DecidableEq

/-- The canonical textual form of one value: the default-conversion rendering,
except that timestamps render as the decimal form of their epoch seconds. -/
def Value.render : Value → String
  | .timeV t => toString t
  | .intV n => toString n
  | .strV s => s
  | .otherV r => r

/-- join from rrd.go: renders each argument and joins the renderings with
the colon delimiter. -/
def join (args : List Value) : String :=
  String.intercalate ":" (args.map Value.render)

/-- The tail-recursive worker of String.intercalate unfolded into the direct
form: the accumulator followed by the separator-prefixed remaining pieces. -/
theorem intercalate_go_eq (s : String) :
    ∀ (as : List String) (acc : String),
      String.intercalate.go acc s as
        = acc ++ (as.map (fun a => s ++ a)).foldr (· ++ ·) "" := by
  intro as
  induction as with
  | nil => intro acc; simp [String.intercalate.go]
  | cons a as ih =>
      intro acc
      simp only [String.intercalate.go, ih, List.map_cons, List.foldr_cons]
      simp [String.append_assoc]

/-- String.intercalate on a nonempty list: the head, then (when the tail is
nonempty) the separator and the intercalation of the tail. -/
theorem intercalate_cons (s a : String) (as : List String) :
    String.intercalate s (a :: as)
      = a ++ (if as.isEmpty then "" else s ++ String.intercalate s as) := by
  cases as with
  | nil => simp [String.intercalate, String.intercalate.go]
  | cons b bs =>
      simp only [String.intercalate, List.isEmpty_cons]
      rw [intercalate_go_eq, intercalate_go_eq]
      simp [String.append_assoc]

/-! ## Schema builder (Creator) -/

/-- Creator from rrd.go: the target filename, the start timestamp (carried as
its epoch-second count), the base step in seconds, and the accumulated list of
DS/RRA command tokens. -/
structure Creator where
  filename : String
  start : Int
  step : Nat
  args : List String
deriving DecidableEq

/-- NewCreator from rrd.go: records filename, start and step; the token list
begins empty. -/
def NewCreator (filename : String) (start : Int) (step : Nat) : Creator :=
  { filename := filename, start := start, step := step, args := [] }

/-- Creator.DS from rrd.go: appends one data-source token. -/
def Creator.DS (c : Creator) (name compute : String) (args : List Value) :
    Creator :=
  { c with args := c.args ++ ["DS:" ++ name ++ ":" ++ compute ++ ":" ++ join args] }

/-- Creator.RRA from rrd.go: appends one archive token. -/
def Creator.RRA (c : Creator) (cf : String) (args : List Value) : Creator :=
  { c with args := c.args ++ ["RRA:" ++ cf ++ ":" ++ join args] }

/-- The observable steps Creator.Create performs, in order: attempting the
exclusive-create probe (os.OpenFile with O_CREATE|O_EXCL), closing the probe
file handle, and invoking the engine's create entry point. -/
inductive CreateEvent where
  | probeOpen
  | probeClose
  | engineCreate
deriving DecidableEq

/-- The two failure kinds Create can surface: the filesystem error returned by
the exclusive-create probe, or the engine's own error. They are distinct
constructors, as the two are distinct kinds of Go error values. -/
inductive CreateError where
  | fsError (msg : String)
  | engineError (msg : String)
deriving DecidableEq

/-- Creator.Create from rrd.go, instrumented with the ordered list of events it
performs. The engine's create entry point (the cgo call, outside this layer) is
an oracle: engineRes is the error it would report, none meaning success.
probeRes is the outcome of the os.OpenFile exclusive-create probe: some msg
models the probe failing with filesystem error msg (as it does when the target
already exists, or cannot be created); none models the probe succeeding. -/
def Creator.Create (c : Creator) (overwrite : Bool)
    (probeRes : Option String) (engineRes : Option String) :
    List CreateEvent × Option CreateError :=
  if !overwrite then
    match probeRes with
    | some msg => ([.probeOpen], some (.fsError msg))
    | none =>
        ([.probeOpen, .probeClose, .engineCreate], engineRes.map .engineError)
  else
    ([.engineCreate], engineRes.map .engineError)

/-! ## Sample buffer (Updater) -/

/-- Updater from rrd.go: the target filename, the recorded update template
(the cstring fields carried as plain strings) and the pending buffer of
serialized rows. -/
structure Updater where
  filename : String
  template : String
  args : List String
deriving DecidableEq

/-- NewUpdater from rrd.go: records the filename; template and pending buffer
begin empty. -/
def NewUpdater (filename : String) : Updater :=
  { filename := filename, template := "", args := [] }

/-- Updater.SetTemplate from rrd.go: overwrites the template field with the
colon-join of the supplied data-source names. -/
def Updater.SetTemplate (u : Updater) (dsName : List String) : Updater :=
  { u with template := String.intercalate ":" dsName }

/-- Updater.Cache from rrd.go: serializes the arguments into one row and
appends it to the pending buffer; the engine is not touched. -/
def Updater.Cache (u : Updater) (args : List Value) : Updater :=
  { u with args := u.args ++ [join args] }

/-- One request submitted to the engine's update entry point: the template in
force and the serialized rows handed over. -/
structure UpdateCall where
  template : String
  rows : List String
deriving DecidableEq

/-- What one call to Updater.Update does: the updater state afterwards, the
request submitted to the engine (none when the engine was not invoked), and
the error returned to the caller. -/
structure UpdateOutcome where
  updater : Updater
  call : Option UpdateCall
  result : Option String
deriving DecidableEq

/-- Updater.Update from rrd.go, instrumented with the engine request it
submits. The engine's update entry point (the cgo call, outside this layer) is
an oracle: engineRes is the error it would report for the submitted request,
none meaning success; it is consulted only when a request is actually made.
With arguments: one fresh row is submitted and the pending buffer is untouched.
Without arguments and a nonempty buffer: the whole buffer is submitted as one
request and then cleared unconditionally. Without arguments and an empty
buffer: nothing happens and success is returned. -/
def Updater.Update (u : Updater) (args : List Value)
    (engineRes : Option String) : UpdateOutcome :=
  if args.length ≠ 0 then
    { updater := u
      call := some { template := u.template, rows := [join args] }
      result := engineRes }
  else if u.args.length ≠ 0 then
    { updater := { u with args := [] }
      call := some { template := u.template, rows := u.args }
      result := engineRes }
  else
    { updater := u, call := none, result := none }

/-- A sequence of Cache calls applied in order. -/
def cacheAll (u : Updater) (rowArgs : List (List Value)) : Updater :=
  rowArgs.foldl Updater.Cache u

/-! ## Graph assembler (Grapher) -/

/-- Zero-pads a decimal digit string on the left to the given width. -/
def padZeros (w : Nat) (s : String) : String :=
  String.mk (List.replicate (w - s.length) '0') ++ s

/-- The fmt %f rendering of a LINE width. Go formats the float32 width with
the %f verb, which prints the value in decimal with six digits after the
point. We carry each width as its exact count of millionths (so the float32
value 1.0 is carried as 1000000 and renders as 1.000000), which determines
the %f output for every width exactly representable at that scale. -/
def fmtF (micros : Int) : String :=
  (if micros < 0 then "-" else "")
    ++ toString (micros.natAbs / 1000000)
    ++ "." ++ padZeros 6 (toString (micros.natAbs % 1000000))

/-- Grapher from rrd.go: the scalar rendering options and the accumulated list
of graph-element tokens. The sync.Mutex field guards the render entry points
(the cgo graph call, outside this layer) and carries no data, so it has no
counterpart here. -/
structure Grapher where
  title : String
  vlabel : String
  width : Nat
  height : Nat
  args : List String
deriving DecidableEq

/-- NewGrapher from rrd.go: the zero Grapher. -/
def NewGrapher : Grapher :=
  { title := "", vlabel := "", width := 0, height := 0, args := [] }

/-- Grapher.SetTitle from rrd.go. -/
def Grapher.SetTitle (g : Grapher) (title : String) : Grapher :=
  { g with title := title }

/-- Grapher.SetVLabel from rrd.go. -/
def Grapher.SetVLabel (g : Grapher) (vlabel : String) : Grapher :=
  { g with vlabel := vlabel }

/-- Grapher.SetSize from rrd.go. -/
def Grapher.SetSize (g : Grapher) (width height : Nat) : Grapher :=
  { g with width := width, height := height }

/-- Grapher.push from rrd.go: joins any options onto the command token with
colons and appends the token to the element list. -/
def Grapher.push (g : Grapher) (cmd : String) (options : List String) :
    Grapher :=
  { g with
      args := g.args ++
        [if options.length > 0
          then cmd ++ ":" ++ String.intercalate ":" options
          else cmd] }

/-- Grapher.Def from rrd.go. -/
def Grapher.Def (g : Grapher) (vname rrdfile dsname cf : String)
    (options : List String) : Grapher :=
  g.push ("DEF:" ++ vname ++ "=" ++ rrdfile ++ ":" ++ dsname ++ ":" ++ cf)
    options

/-- Grapher.VDef from rrd.go. -/
def Grapher.VDef (g : Grapher) (vname rpn : String) : Grapher :=
  g.push ("VDEF:" ++ vname ++ "=" ++ rpn) []

/-- Grapher.CDef from rrd.go. -/
def Grapher.CDef (g : Grapher) (vname rpn : String) : Grapher :=
  g.push ("CDEF:" ++ vname ++ "=" ++ rpn) []

/-- Grapher.Line from rrd.go: the width is the LINE width in millionths (see
fmtF); the color suffix is attached only when color is nonempty. -/
def Grapher.Line (g : Grapher) (width : Int) (value color : String)
    (options : List String) : Grapher :=
  let line := "LINE" ++ fmtF width ++ ":" ++ value
  let line := if color ≠ "" then line ++ "#" ++ color else line
  g.push line options

/-- Grapher.Print from rrd.go. -/
def Grapher.Print (g : Grapher) (vname format : String) : Grapher :=
  g.push ("PRINT:" ++ vname ++ ":" ++ format) []

/-- Grapher.PrintT from rrd.go: the time-formatted variant of Print. -/
def Grapher.PrintT (g : Grapher) (vname format : String) : Grapher :=
  g.push ("PRINT:" ++ vname ++ ":" ++ format ++ ":strftime") []

/-- Grapher.GPrint from rrd.go. -/
def Grapher.GPrint (g : Grapher) (vname format : String) : Grapher :=
  g.push ("GPRINT:" ++ vname ++ ":" ++ format) []

/-- Grapher.GPrintT from rrd.go: the time-formatted variant of GPrint. -/
def Grapher.GPrintT (g : Grapher) (vname format : String) : Grapher :=
  g.push ("GPRINT:" ++ vname ++ ":" ++ format ++ ":strftime") []

/-! ## Helper lemmas -/

/-- A sequence of Cache calls appends, in call order, the serialization of each
argument list to the pending buffer and touches nothing else. -/
theorem cacheAll_eq (rowArgs : List (List Value)) :
    ∀ u : Updater,
      cacheAll u rowArgs = { u with args := u.args ++ rowArgs.map join } := by
  induction rowArgs with
  | nil => intro u; simp [cacheAll]
  | cons r rs ih =>
      intro u
      simp only [cacheAll, List.foldl_cons] at *
      rw [ih]
      simp [Updater.Cache, List.append_assoc]

/-! ## Claim theorems -/

/-- C1: starting from an empty pending buffer, after a sequence of Cache calls
the buffer holds exactly the serialized rows in call order, and a subsequent
zero-arg Update submits exactly those rows to the engine as one request and
leaves the buffer empty, with the caller receiving whatever the engine
reported: success and failure alike clear the buffer, so a failed flush does
not requeue the rows. -/
theorem updater_cache_then_flush
    (fn tmpl : String) (r : List Value) (rs : List (List Value))
    (engineRes : Option String) :
    (cacheAll ⟨fn, tmpl, []⟩ (r :: rs)).args = (r :: rs).map join ∧
    Updater.Update (cacheAll ⟨fn, tmpl, []⟩ (r :: rs)) [] engineRes =
      { updater := ⟨fn, tmpl, []⟩
        call := some { template := tmpl, rows := (r :: rs).map join }
        result := engineRes } := by
  rw [cacheAll_eq]
  exact ⟨rfl, by simp [Updater.Update]⟩

/-- C2: Update with a nonempty argument list serializes the arguments into
exactly one row, submits that single row to the engine, and leaves the whole
updater state (in particular the pending buffer) unchanged, whatever the
engine reports; the submitted request does not depend on the buffer. -/
theorem updater_immediate_update_frame
    (u : Updater) (a : Value) (as : List Value) (engineRes : Option String) :
    Updater.Update u (a :: as) engineRes =
      { updater := u
        call := some { template := u.template, rows := [join (a :: as)] }
        result := engineRes } := by
  simp [Updater.Update]

/-- C3: a zero-arg Update on an updater whose pending buffer is empty makes no
engine call and returns success. -/
theorem updater_empty_flush_noop
    (fn tmpl : String) (engineRes : Option String) :
    Updater.Update ⟨fn, tmpl, []⟩ [] engineRes =
      { updater := ⟨fn, tmpl, []⟩, call := none, result := none } := by
  simp [Updater.Update]

/-- C4: join joins the canonical textual forms of the values with the colon
delimiter, one delimiter between consecutive values; a timestamp value renders
as the decimal form of its integer epoch-second count, and every other kind of
value renders via its default textual conversion. -/
theorem join_renders_timestamps_as_epoch :
    (∀ args : List Value,
        join args = String.intercalate ":" (args.map Value.render)) ∧
    (∀ (a : Value) (as : List Value),
        join (a :: as) =
          Value.render a ++ (if as.isEmpty then "" else ":" ++ join as)) ∧
    (∀ t : Int, Value.render (.timeV t) = toString t) ∧
    (∀ n : Int, Value.render (.intV n) = toString n) ∧
    (∀ s : String, Value.render (.strV s) = s) ∧
    (∀ r : String, Value.render (.otherV r) = r) := by
  refine ⟨fun args => rfl, fun a as => ?_, fun t => rfl, fun n => rfl,
    fun s => rfl, fun r => rfl⟩
  cases as with
  | nil => simp [join, String.intercalate, String.intercalate.go]
  | cons b bs =>
      simp only [join, List.map_cons, intercalate_cons, List.isEmpty_cons]

/-- C5: serializing the empty argument list yields the empty string, and
serializing a single value yields exactly its canonical textual form with no
delimiter. -/
theorem join_empty_and_singleton :
    join [] = "" ∧ ∀ v : Value, join [v] = v.render :=
  ⟨rfl, fun _ => rfl⟩

/-- C6: with overwrite disabled and the exclusive-create probe failing (as it
does when the target already exists), Create surfaces the probe's filesystem
error — the fsError kind, not the engineError kind — and the engine's create
entry point is never invoked; and when the probe succeeds, the probe handle is
closed before the engine is invoked, whatever the engine then reports. -/
theorem creator_create_excl_probe
    (c : Creator) (e : String) (engineRes : Option String) :
    (c.Create false (some e) engineRes).2 = some (.fsError e) ∧
    (c.Create false (some e) engineRes).1 = [.probeOpen] ∧
    (c.Create false none engineRes).1 =
      [.probeOpen, .probeClose, .engineCreate] :=
  ⟨rfl, rfl, rfl⟩

/-- C7: DS appends exactly the token DS:name:compute:serialized-args, RRA
appends exactly the token RRA:cf:serialized-args, nothing else changes, and
successive calls accumulate their tokens in call order. -/
theorem creator_ds_rra_append
    (c : Creator) (name compute cf : String) (dsArgs rraArgs : List Value) :
    c.DS name compute dsArgs =
      { c with
          args := c.args ++
            ["DS:" ++ name ++ ":" ++ compute ++ ":" ++ join dsArgs] } ∧
    c.RRA cf rraArgs =
      { c with args := c.args ++ ["RRA:" ++ cf ++ ":" ++ join rraArgs] } ∧
    ((c.DS name compute dsArgs).RRA cf rraArgs).args =
      c.args ++ ["DS:" ++ name ++ ":" ++ compute ++ ":" ++ join dsArgs,
        "RRA:" ++ cf ++ ":" ++ join rraArgs] := by
  refine ⟨rfl, rfl, ?_⟩
  simp [Creator.DS, Creator.RRA]

/-- C8: every element-accumulation call appends exactly one token at the end
of the element list, so the list preserves append order exactly: Def appends
DEF:vname=rrdfile:dsname:cf followed by the colon-joined options when options
are given, VDef and CDef append their single token, and Line appends its token
with the color suffix present exactly when the color is nonempty; the sample
build Def, then VDef, then Line yields exactly those three tokens in order. -/
theorem grapher_accumulation_order :
    (∀ (g : Grapher) (vname rrdfile dsname cf : String)
        (options : List String),
        (g.Def vname rrdfile dsname cf options).args =
          g.args ++
            [("DEF:" ++ vname ++ "=" ++ rrdfile ++ ":" ++ dsname ++ ":" ++ cf)
              ++ if options.length > 0
                then ":" ++ String.intercalate ":" options else ""]) ∧
    (∀ (g : Grapher) (vname rpn : String),
        (g.VDef vname rpn).args = g.args ++ ["VDEF:" ++ vname ++ "=" ++ rpn]) ∧
    (∀ (g : Grapher) (vname rpn : String),
        (g.CDef vname rpn).args = g.args ++ ["CDEF:" ++ vname ++ "=" ++ rpn]) ∧
    (∀ (g : Grapher) (w : Int) (value color : String)
        (options : List String),
        (g.Line w value color options).args =
          g.args ++
            [(("LINE" ++ fmtF w ++ ":" ++ value)
                ++ if color = "" then "" else "#" ++ color)
              ++ if options.length > 0
                then ":" ++ String.intercalate ":" options else ""]) ∧
    (((NewGrapher.Def "a" "f.rrd" "ds0" "AVERAGE" []).VDef
          "b" "a,50,TREND").Line 1000000 "b" "FF0000" []).args =
      ["DEF:a=f.rrd:ds0:AVERAGE", "VDEF:b=a,50,TREND",
        "LINE1.000000:b#FF0000"] := by
  refine ⟨?_, fun g vname rpn => rfl, fun g vname rpn => rfl, ?_, ?_⟩
  · intro g vname rrdfile dsname cf options
    by_cases h : options.length > 0 <;>
      simp [Grapher.Def, Grapher.push, h, String.append_assoc]
  · intro g w value color options
    by_cases hc : color = "" <;>
      by_cases h : options.length > 0 <;>
        simp [Grapher.Line, Grapher.push, h, hc, String.append_assoc]
  · decide

/-- C9: Print and PrintT on the same variable and format append tokens that
differ only by the trailing strftime marker and change nothing else in the
grapher, and the same relation holds between GPrint and GPrintT. -/
theorem print_strftime_relation (g : Grapher) (vname format : String) :
    g.Print vname format =
      { g with args := g.args ++ ["PRINT:" ++ vname ++ ":" ++ format] } ∧
    g.PrintT vname format =
      { g with
          args := g.args ++
            [("PRINT:" ++ vname ++ ":" ++ format) ++ ":strftime"] } ∧
    g.GPrint vname format =
      { g with args := g.args ++ ["GPRINT:" ++ vname ++ ":" ++ format] } ∧
    g.GPrintT vname format =
      { g with
          args := g.args ++
            [("GPRINT:" ++ vname ++ ":" ++ format) ++ ":strftime"] } :=
  ⟨rfl, rfl, rfl, rfl⟩

/-- C10: SetTemplate may be called repeatedly: each call unconditionally
replaces the recorded template with the colon-join of the newly supplied
names, so a second call erases the first entirely, and every subsequent flush
— immediate or buffered — submits its request under the template of the most
recent SetTemplate call. -/
theorem set_template_replaces
    (u : Updater) (ns1 ns2 : List String) :
    (u.SetTemplate ns1).SetTemplate ns2 = u.SetTemplate ns2 ∧
    ((u.SetTemplate ns1).SetTemplate ns2).template =
      String.intercalate ":" ns2 ∧
    (∀ (a : Value) (as : List Value) (engineRes : Option String),
        (((u.SetTemplate ns1).SetTemplate ns2).Update (a :: as)
            engineRes).call =
          some { template := String.intercalate ":" ns2,
                 rows := [join (a :: as)] }) ∧
    (∀ (r : List Value) (rs : List (List Value)) (engineRes : Option String),
        (Updater.Update
            (cacheAll ((u.SetTemplate ns1).SetTemplate ns2) (r :: rs))
            [] engineRes).call =
          some { template := String.intercalate ":" ns2,
                 rows := u.args ++ (r :: rs).map join }) := by
  refine ⟨rfl, rfl, fun a as engineRes => ?_, fun r rs engineRes => ?_⟩
  · simp [Updater.SetTemplate, Updater.Update]
  · rw [cacheAll_eq]
    simp [Updater.SetTemplate, Updater.Update]
